import Mathlib

/-!
Verification of the product-schema repository: a shallow embedding of
`store/schemas/base.py` (the `BaseSchemaMixin` pydantic model),
`store/schemas/product.py` (the `ProductIn` pydantic model) and the
pytest fixtures of `tests/conftest.py` (`clear_collections`,
`product_id`, `product_in`).

Machine values are modelled with `Nat`/`Int`; a Python float is a
`PyFloat` (an exact rational when finite, or a signed infinity or
nan); a 128-bit UUID is a `Nat` below `2 ^ 128`; a `datetime` is an
instant (microseconds since the epoch) together with an optional UTC
offset (`none` models a naive datetime, `some 0` a UTC-aware one).
Nondeterminism of the pydantic default factories (`uuid.uuid4`,
`datetime.now(UTC)`) is made explicit through an environment `Env`
that records the value returned by the n-th call to the random source
and to the wall clock.
-/

set_option autoImplicit false

namespace TddProject

/-- A Python `datetime`: an instant in microseconds since the epoch and
an optional UTC offset in minutes (`none` = naive, `some 0` = UTC). -/
structure Datetime where
  val : Nat
  tz : Option Int
deriving DecidableEq

/-- A Python `uuid.UUID`: its 128-bit integer value. -/
structure UUID where
  val : Nat
deriving DecidableEq

/-- The RFC 4122 version nibble of a UUID: bits 76..79 of its value. -/
def UUID.version (u : UUID) : Nat := u.val / 2 ^ 76 % 16

/-- A Python float value as pydantic stores it: a finite value
(idealized as an exact rational — the binary rounding of the program's
64-bit floats, and their overflow to infinity at the extremes, are
abstracted away), a signed infinity, or nan. -/
inductive PyFloat where
  | finite (q : Rat)
  | inf
  | neginf
  | nan
deriving DecidableEq

/-- A Python value, as it may be passed to a pydantic constructor. -/
inductive PyValue where
  | bool (b : Bool)
  | int (n : Int)
  | float (f : PyFloat)
  | str (s : String)
  | datetime (d : Datetime)
  | uuid (u : UUID)
deriving DecidableEq

/-- Digit run to a number: `['1','0'] ↦ 10`. -/
def digitsVal (cs : List Char) : Nat :=
  cs.foldl (fun a c => a * 10 + (c.toNat - 48)) 0

/-- A nonempty all-digit run parses to its value; anything else fails. -/
def parseDigits (cs : List Char) : Option Nat :=
  if cs ≠ [] ∧ cs.all (·.isDigit) then some (digitsVal cs) else none

/-- A digit group with underscores per Python numeric-literal rules —
every underscore must sit strictly between two digits: returns the bare
digits of a valid nonempty group, failing on anything else. -/
def stripUnderscores : List Char → Option (List Char)
  | [] => none
  | [c] => if c.isDigit then some [c] else none
  | c :: d :: rest =>
      if c.isDigit then
        if d = '_' then
          match rest with
          | [] => none
          | e :: _ =>
              if e.isDigit then (stripUnderscores rest).map (c :: ·)
              else none
        else (stripUnderscores (d :: rest)).map (c :: ·)
      else none

/-- Trim whitespace from both ends, as pydantic's string-to-number
coercions do before parsing. -/
def trimWs (cs : List Char) : List Char :=
  ((cs.dropWhile Char.isWhitespace).reverse.dropWhile Char.isWhitespace).reverse

/-- Pydantic-core's lax `str → int` parse: trim surrounding
whitespace; optional sign; then an integer digit group (single
underscores allowed between digits, e.g. `"1_000"`), optionally
followed by a decimal point and only zeros (so `"2.0"` coerces to 2
while `"2.5"` and non-numeric strings are rejected). -/
def str_to_int (s : String) : Option Int :=
  let core : List Char → Option Nat := fun body =>
    let ip := body.takeWhile (· ≠ '.')
    match body.dropWhile (· ≠ '.') with
    | [] => (stripUnderscores ip).map digitsVal
    | '.' :: frac =>
        if frac.all (· = '0') then (stripUnderscores ip).map digitsVal else none
    | _ => none
  match trimWs s.data with
  | '+' :: rest => (core rest).map Int.ofNat
  | '-' :: rest => (core rest).map (fun n => -(Int.ofNat n))
  | cs => (core cs).map Int.ofNat

/-- Unsigned decimal literal: `digits`, or `digits.digits` with at
least one digit overall, valued as an exact rational. -/
def parseDecimal (cs : List Char) : Option Rat :=
  let intPart := cs.takeWhile (· ≠ '.')
  match cs.dropWhile (· ≠ '.') with
  | [] => (parseDigits intPart).map (fun n => (n : Rat))
  | '.' :: frac =>
      if (intPart.all (·.isDigit) ∧ frac.all (·.isDigit)) ∧
          (intPart ≠ [] ∨ frac ≠ []) then
        some (mkRat (digitsVal intPart * 10 ^ frac.length + digitsVal frac)
          (10 ^ frac.length))
      else none
  | _ => none

/-- Exponent suffix (already behind the `'e'`): optional sign then
digits, scaling the mantissa by the corresponding power of ten. -/
def applyExp (m : Rat) : List Char → Option Rat
  | '+' :: ds => (parseDigits ds).map (fun k => m * ((10 ^ k : Nat) : Rat))
  | '-' :: ds => (parseDigits ds).map (fun k => m * mkRat 1 (10 ^ k))
  | ds => (parseDigits ds).map (fun k => m * ((10 ^ k : Nat) : Rat))

/-- Decimal mantissa with optional exponent:
`digits[.digits][e[sign]digits]`, e.g. `"10.5"`, `".5"`, `"1e3"`,
`"2.5e-2"`. -/
def parseDecExp (cs : List Char) : Option Rat :=
  match cs.dropWhile (· ≠ 'e') with
  | [] => parseDecimal cs
  | 'e' :: ex => (parseDecimal (cs.takeWhile (· ≠ 'e'))).bind fun m => applyExp m ex
  | _ => none

/-- Unsigned float body, already lowercased: the words `inf`,
`infinity` and `nan`, or decimal notation with optional exponent. -/
def parseFloatBody (neg : Bool) (cs : List Char) : Option PyFloat :=
  if cs = ['i', 'n', 'f'] ∨ cs = ['i', 'n', 'f', 'i', 'n', 'i', 't', 'y'] then
    some (if neg then .neginf else .inf)
  else if cs = ['n', 'a', 'n'] then some .nan
  else (parseDecExp cs).map (fun q => .finite (if neg then -q else q))

/-- Pydantic-core's lax `str → float` parse (Rust float-from-string
semantics): trim surrounding whitespace, case-insensitive, optional
sign, then `inf`/`infinity`/`nan` or decimal notation with optional
exponent (`"10.5"`, `"1e3"`, `".5"`).  Finite results are exact
rationals (see `PyFloat`). -/
def str_to_float (s : String) : Option PyFloat :=
  match (trimWs s.data).map Char.toLower with
  | '+' :: rest => parseFloatBody false rest
  | '-' :: rest => parseFloatBody true rest
  | cs => parseFloatBody false cs

/-- Pydantic v2 lax validation of a `str` field: only `str` input is
accepted (booleans and numbers are rejected). -/
def validateStr : PyValue → Option String
  | .str s => some s
  | _ => none

/-- Pydantic v2 lax validation of an `int` field: `int` passes through;
a finite `float` is accepted when it is integral; a `str` is accepted
when it parses as an integer (`str_to_int`); `bool`, non-finite floats
and everything else are rejected. -/
def validateInt : PyValue → Option Int
  | .int n => some n
  | .float (.finite q) => if q.den = 1 then some q.num else none
  | .float _ => none
  | .str s => str_to_int s
  | _ => none

/-- Pydantic v2 lax validation of a `float` field: `float` passes
through; an `int` is coerced; a `str` is accepted when it parses as a
float (`str_to_float`); `bool` and everything else are rejected. -/
def validateFloat : PyValue → Option PyFloat
  | .float f => some f
  | .int n => some (.finite n)
  | .str s => str_to_float s
  | _ => none

/-- Pydantic v2 lax validation of a `bool` field: `bool` passes
through; the ints and floats `0`/`1` and the usual truthy/falsy strings
are coerced; everything else is rejected. -/
def validateBool : PyValue → Option Bool
  | .bool b => some b
  | .int n => if n = 0 then some false else if n = 1 then some true else none
  | .float (.finite q) =>
      if q = 0 then some false else if q = 1 then some true else none
  | .float _ => none
  | .str s =>
      if s.toLower ∈ ["true", "t", "yes", "y", "on", "1"] then some true
      else if s.toLower ∈ ["false", "f", "no", "n", "off", "0"] then some false
      else none
  | _ => none

/-- Pydantic validation of a `UUID4` field: a UUID object is accepted
exactly when its version nibble is `4`. -/
def validateUUID4 : PyValue → Option UUID
  | .uuid u => if u.version = 4 then some u else none
  | _ => none

/-- Pydantic validation of a plain `datetime` field: a datetime object
is accepted as given — aware or naive alike. -/
def validateDatetime : PyValue → Option Datetime
  | .datetime d => some d
  | _ => none

/-- The ambient nondeterminism of the default factories: `rand n` is
the 128-bit draw consumed by the n-th call to `uuid.uuid4`, `now n` the
instant returned by the n-th call to `datetime.now(UTC)` during one
construction. -/
structure Env where
  rand : Nat → Nat
  now : Nat → Nat

/-- `uuid.uuid4()` on a 128-bit random draw `r`: keep the 48 high bits,
the 12 bits below the version nibble and the 62 low bits, and force the
version nibble to `4` and the variant bits to `10₂`. -/
def uuid4 (r : Nat) : UUID :=
  ⟨r % 2 ^ 128 / 2 ^ 80 * 2 ^ 80 + 4 * 2 ^ 76 +
    r % 2 ^ 128 / 2 ^ 64 % 2 ^ 12 * 2 ^ 64 + 2 * 2 ^ 62 + r % 2 ^ 128 % 2 ^ 62⟩

/-- `datetime.now(UTC)` at the k-th clock call: the clock's instant,
UTC-aware. -/
def now_utc (env : Env) (k : Nat) : Datetime := ⟨env.now k, some 0⟩

/-- The record produced by `BaseSchemaMixin` of `store/schemas/base.py`:
a UUID4 `id` and `created_at`/`updated_at` datetimes. -/
structure BaseSchemaMixin where
  id : UUID
  created_at : Datetime
  updated_at : Datetime
deriving DecidableEq

/-- One pydantic field with a default factory: an omitted keyword takes
the factory's value unvalidated (pydantic does not validate
default-factory output); a supplied one is validated. -/
def fieldVal {α : Type} (dflt : α) (validate : PyValue → Option α) :
    Option PyValue → Option α
  | none => some dflt
  | some v => validate v

/-- The index of the clock call feeding the `updated_at` default: call
1 when `created_at` was also defaulted (its factory ran first, as call
0), call 0 otherwise. -/
def nowIdx : Option PyValue → Nat
  | none => 1
  | some _ => 0

/-- The shared field logic of `BaseSchemaMixin`: each field, in
declaration order (`id`, `created_at`, `updated_at`), is validated when
supplied and produced by its default factory when omitted.  `id`
defaults to `uuid.uuid4()`; each timestamp defaults to its own
`datetime.now(UTC)` call, the clock counter advancing per call. -/
def baseFields (env : Env) (id? created? updated? : Option PyValue) :
    Option (UUID × Datetime × Datetime) :=
  (fieldVal (uuid4 (env.rand 0)) validateUUID4 id?).bind fun i =>
  (fieldVal (now_utc env 0) validateDatetime created?).bind fun c =>
  (fieldVal (now_utc env (nowIdx created?)) validateDatetime updated?).bind fun u =>
  some (i, c, u)

/-- Constructing a `BaseSchemaMixin(id=…, created_at=…, updated_at=…)`
with each keyword argument optionally supplied; `none` output models a
pydantic `ValidationError`. -/
def BaseSchemaMixin.construct (env : Env) (id? created? updated? : Option PyValue) :
    Option BaseSchemaMixin :=
  (baseFields env id? created? updated?).map fun f => ⟨f.1, f.2.1, f.2.2⟩

/-- The record produced by `ProductIn` of `store/schemas/product.py`:
the base fields plus `name`, `quantity`, `price`, `status`. -/
structure ProductIn where
  id : UUID
  created_at : Datetime
  updated_at : Datetime
  name : String
  quantity : Int
  price : PyFloat
  status : Bool
deriving DecidableEq

/-- The keyword arguments of a `ProductIn(…)` call; a `none` field is
an omitted keyword. -/
structure ProductInput where
  id : Option PyValue := none
  created_at : Option PyValue := none
  updated_at : Option PyValue := none
  name : Option PyValue := none
  quantity : Option PyValue := none
  price : Option PyValue := none
  status : Option PyValue := none

/-- Constructing a `ProductIn(…)`: the inherited base fields behave as
in `BaseSchemaMixin`; `name`/`quantity`/`price`/`status` are declared
with `Field(...)` (required, no default), so an omitted one fails
validation, and a supplied one is validated laxly at its declared type.
`none` output models a pydantic `ValidationError`. -/
def ProductIn.construct (env : Env) (inp : ProductInput) : Option ProductIn :=
  (baseFields env inp.id inp.created_at inp.updated_at).bind fun b =>
  (inp.name.bind validateStr).bind fun n =>
  (inp.quantity.bind validateInt).bind fun q =>
  (inp.price.bind validateFloat).bind fun p =>
  (inp.status.bind validateBool).bind fun st =>
  some ⟨b.1, b.2.1, b.2.2, n, q, p, st⟩

/-- Python's `str.startswith(pre)`: the characters of `pre` are a
prefix of the characters of `s`. -/
def py_startswith (s pre : String) : Bool := pre.data.isPrefixOf s.data

/-- The target database as the cleanup fixture sees it: its collections
in listing order, each with its document count. -/
structure DB where
  colls : List (String × Nat)
deriving DecidableEq

/-- The `for collection_name in collections_names:` loop of
`clear_collections` in `tests/conftest.py`, over a failure schedule
`failDel`: a `system`-prefixed collection is skipped (`continue`); on
any other, `delete_many({})` either raises (`failDel` true — the loop
aborts, later collections untouched) or empties the collection.  The
returned flag records whether an exception was raised. -/
def deleteLoop (failDel : String → Bool) :
    List (String × Nat) → List (String × Nat) × Bool
  | [] => ([], false)
  | (n, k) :: rest =>
      if py_startswith n "system" then
        let r := deleteLoop failDel rest
        ((n, k) :: r.1, r.2)
      else if failDel n then ((n, k) :: rest, true)
      else
        let r := deleteLoop failDel rest
        ((n, 0) :: r.1, r.2)

/-- The `try:` body of `clear_collections`: list the collection names
(which may itself raise, per `failList`), then run the deletion loop.
An `Except.error` carries the database state at the moment the
exception propagates out of the body. -/
def cleanup_body (failList : Bool) (failDel : String → Bool) (db : DB) :
    Except DB DB :=
  if failList then .error db
  else
    match deleteLoop failDel db.colls with
    | (c, true) => .error ⟨c⟩
    | (c, false) => .ok ⟨c⟩

/-- The post-test cleanup of the `clear_collections` fixture in
`tests/conftest.py`: the body wrapped in `try: … except Exception:
pass`, so a raised exception is caught and discarded and the database
is left in whatever state the body reached. -/
def clear_collections (failList : Bool) (failDel : String → Bool) (db : DB) : DB :=
  match cleanup_body failList failDel db with
  | .ok d => d
  | .error d => d

/-- One test under the autouse fixture: the test finishes with outcome
`outcome` (true = pass), then the cleanup runs; the suite records the
pair of the test's outcome and the database state the cleanup left. -/
def run_test_with_cleanup (outcome : Bool) (failList : Bool)
    (failDel : String → Bool) (db : DB) : Bool × DB :=
  (outcome, clear_collections failList failDel db)

/-- The connection string the `mongo_client` fixture passes to
`AsyncIOMotorClient` in `tests/conftest.py`. -/
def mongo_client_uri : String := "mongodb://localhost:27017"

/-- The default database named by a `mongodb://` connection URI: the
nonempty path segment after the host part, up to `'/'` or `'?'` —
`"mongodb://localhost:27017/store"` names `store`, while
`"mongodb://localhost:27017"` names none.  `get_database()` with no
argument returns this database, and raises `ConfigurationError` when
the URI names none (pymongo's documented behavior, which motor
delegates to). -/
def uri_default_database (uri : String) : Option String :=
  if py_startswith uri "mongodb://" then
    let after := uri.data.drop 10
    match after.dropWhile (· ≠ '/') with
    | '/' :: rest =>
        let dbname := rest.takeWhile (fun c => c ≠ '?' ∧ c ≠ '/')
        if dbname ≠ [] then some (String.mk dbname) else none
    | _ => none
  else none

/-- The cleanup as the program actually executes it: the listing step
goes through `mongo_client.get_database()`, which raises exactly when
`mongo_client_uri` names no default database; `failDel` schedules any
further `delete_many` failures. -/
def clear_collections_run (failDel : String → Bool) (db : DB) : DB :=
  clear_collections (uri_default_database mongo_client_uri).isNone failDel db

/-- The `product_id` fixture of `tests/conftest.py`:
`UUID("ddc287ef-ab93-4ef5-8336-78883c422f6a")`. -/
def product_id : UUID := ⟨0xddc287efab934ef5833678883c422f6a⟩

/-- Modelled from the spec: `tests/factories.py` (imported by
`tests/conftest.py` for `product_data`) is not among the provided
sources.  The spec says only that it generates values for the four
business fields — "a fully-populated, valid Product instance is
constructed from factory-generated field values (name/quantity/price/
status — generation rules not in this excerpt)" — so it is modelled as
producing arbitrary well-typed values for exactly those four fields. -/
def product_data (name : String) (quantity : Int) (price : PyFloat)
    (status : Bool) : ProductInput :=
  { name := some (.str name), quantity := some (.int quantity),
    price := some (.float price), status := some (.bool status) }

/-- The `product_in` fixture of `tests/conftest.py`:
`ProductIn(**product_data(), id=product_id)`. -/
def product_in (env : Env) (name : String) (quantity : Int) (price : PyFloat)
    (status : Bool) : Option ProductIn :=
  ProductIn.construct env
    { product_data name quantity price status with id := some (.uuid product_id) }

/-! ## Claims -/

/-- C1 — counterexample.  The claim says that a construction of
`BaseSchemaMixin` with no explicit timestamps has `created_at` equal to
`updated_at` exactly.  Each timestamp comes from its own
`datetime.now(UTC)` default-factory call, so when the clock advances
between those two calls (modelled here by `now n = n`) the construction
succeeds with `created_at ≠ updated_at`. -/
theorem C1_created_eq_updated_cex :
    BaseSchemaMixin.construct ⟨fun _ => 0, fun n => n⟩ none none none =
      some ⟨uuid4 0, ⟨0, some 0⟩, ⟨1, some 0⟩⟩ ∧
    (Datetime.mk 0 (some 0)) ≠ (Datetime.mk 1 (some 0)) :=
  ⟨rfl, by decide⟩

/-- C1 — amended: in every successful construction with no explicit
timestamps — the `id` may be defaulted or explicitly supplied, as in
the `product_in` fixture — `created_at` is the current UTC time at the
first default-factory clock call and `updated_at` at the second, and
`created_at` equals `updated_at` exactly when the clock returns the
same instant for both calls. -/
theorem C1_created_eq_updated (env : Env) (id? : Option PyValue)
    (r : BaseSchemaMixin)
    (h : BaseSchemaMixin.construct env id? none none = some r) :
    r.created_at = ⟨env.now 0, some 0⟩ ∧ r.updated_at = ⟨env.now 1, some 0⟩ ∧
    (r.created_at = r.updated_at ↔ env.now 0 = env.now 1) := by
  cases hid : fieldVal (uuid4 (env.rand 0)) validateUUID4 id? with
  | none => simp [BaseSchemaMixin.construct, baseFields, hid] at h
  | some i =>
      have hc : BaseSchemaMixin.construct env id? none none =
          some ⟨i, ⟨env.now 0, some 0⟩, ⟨env.now 1, some 0⟩⟩ := by
        unfold BaseSchemaMixin.construct baseFields
        rw [hid]
        rfl
      rw [hc] at h
      cases Option.some.inj h
      refine ⟨rfl, rfl, ?_, ?_⟩
      · intro he
        exact congrArg Datetime.val he
      · intro he
        rw [he]

/-- C1 — witness: an explicit version-4 id with defaulted timestamps,
under the clock `now n = n`: `created_at` reads call 0, `updated_at`
call 1, and they are equal iff `0 = 1`. -/
theorem C1_created_eq_updated_witness :
    (⟨product_id, ⟨0, some 0⟩, ⟨1, some 0⟩⟩ : BaseSchemaMixin).created_at =
      ⟨0, some 0⟩ ∧
    (⟨product_id, ⟨0, some 0⟩, ⟨1, some 0⟩⟩ : BaseSchemaMixin).updated_at =
      ⟨1, some 0⟩ ∧
    ((⟨product_id, ⟨0, some 0⟩, ⟨1, some 0⟩⟩ : BaseSchemaMixin).created_at =
        (⟨product_id, ⟨0, some 0⟩, ⟨1, some 0⟩⟩ : BaseSchemaMixin).updated_at ↔
      (0 : Nat) = 1) :=
  C1_created_eq_updated ⟨fun _ => 0, fun n => n⟩ (some (.uuid product_id))
    ⟨product_id, ⟨0, some 0⟩, ⟨1, some 0⟩⟩ rfl

/-- C3 — the code contradicts the claim (and the cleanup fixture's
evident purpose, per the spec's isolation contract): `mongo_client`
connects with `"mongodb://localhost:27017"`, a URI that names no
default database, so `mongo_client.get_database()` raises
`ConfigurationError` before any collection name is listed; the blanket
`except` swallows it and the cleanup returns with the database
unchanged — no collection is ever purged.  In particular, at the
failing input `{products: 5 documents}` the claim demands `products` be
left empty, but the program leaves all 5 documents in place. -/
theorem C3_cleanup_never_purges (failDel : String → Bool) (db : DB) :
    uri_default_database mongo_client_uri = none ∧
    clear_collections_run failDel db = db ∧
    clear_collections_run (fun _ => false) ⟨[("products", 5)]⟩ =
      ⟨[("products", 5)]⟩ :=
  ⟨rfl, rfl, rfl⟩

/-- C4 — confirmed.  Whenever the body of the cleanup raises — listing
the collection names failing, or any `delete_many` failing midway,
leaving the database in state `d` — the `except Exception: pass`
handler swallows the error: the fixture returns normally with state
`d`, and the test's recorded outcome `o` is unchanged. -/
theorem C4_cleanup_swallows_errors (o : Bool) (failList : Bool)
    (failDel : String → Bool) (db d : DB)
    (h : cleanup_body failList failDel db = .error d) :
    clear_collections failList failDel db = d ∧
    run_test_with_cleanup o failList failDel db = (o, d) := by
  constructor <;> simp [run_test_with_cleanup, clear_collections, h]

/-- C4 — witness: `delete_many` raises on the collection `"orders"`
after `"products"` was already emptied; the error is swallowed, the
partially-cleaned state is kept, and the passing outcome stands. -/
theorem C4_cleanup_swallows_errors_witness :
    cleanup_body false (fun n => n == "orders")
        ⟨[("products", 5), ("orders", 1), ("carts", 7)]⟩ =
      .error ⟨[("products", 0), ("orders", 1), ("carts", 7)]⟩ ∧
    clear_collections false (fun n => n == "orders")
        ⟨[("products", 5), ("orders", 1), ("carts", 7)]⟩ =
      ⟨[("products", 0), ("orders", 1), ("carts", 7)]⟩ ∧
    run_test_with_cleanup true false (fun n => n == "orders")
        ⟨[("products", 5), ("orders", 1), ("carts", 7)]⟩ =
      (true, ⟨[("products", 0), ("orders", 1), ("carts", 7)]⟩) :=
  ⟨rfl, C4_cleanup_swallows_errors true false _ _ _ rfl⟩

/-- C5 — confirmed.  Each explicitly supplied field overrides its
default individually and is stored exactly: all three supplied at once
(with the result independent of the environment, so the default
generators are never consulted), an explicit version-4 `id` alone with
both timestamps defaulted (the `product_in` pattern), an explicit
`created_at` alone, and an explicit `updated_at` alone. -/
theorem C5_explicit_overrides (e1 e2 : Env) (u : UUID) (c d : Datetime)
    (h : u.version = 4) :
    BaseSchemaMixin.construct e1 (some (.uuid u)) (some (.datetime c))
        (some (.datetime d)) = some ⟨u, c, d⟩ ∧
    BaseSchemaMixin.construct e1 (some (.uuid u)) (some (.datetime c))
        (some (.datetime d)) =
      BaseSchemaMixin.construct e2 (some (.uuid u)) (some (.datetime c))
        (some (.datetime d)) ∧
    BaseSchemaMixin.construct e1 (some (.uuid u)) none none =
      some ⟨u, ⟨e1.now 0, some 0⟩, ⟨e1.now 1, some 0⟩⟩ ∧
    BaseSchemaMixin.construct e1 none (some (.datetime c)) none =
      some ⟨uuid4 (e1.rand 0), c, ⟨e1.now 0, some 0⟩⟩ ∧
    BaseSchemaMixin.construct e1 none none (some (.datetime d)) =
      some ⟨uuid4 (e1.rand 0), ⟨e1.now 0, some 0⟩, d⟩ := by
  refine ⟨?_, ?_, ?_, ?_, ?_⟩ <;>
    simp [BaseSchemaMixin.construct, baseFields, fieldVal, validateUUID4,
      validateDatetime, h, now_utc, nowIdx]

/-- C5 — witness: a concrete version-4 UUID and concrete datetimes are
stored exactly as supplied, jointly and one at a time, under two
different environments. -/
theorem C5_explicit_overrides_witness :
    UUID.version ⟨4 * 2 ^ 76⟩ = 4 ∧
    (BaseSchemaMixin.construct ⟨fun _ => 9, fun _ => 9⟩
        (some (.uuid ⟨4 * 2 ^ 76⟩)) (some (.datetime ⟨1, none⟩))
        (some (.datetime ⟨2, some 0⟩)) =
      some ⟨⟨4 * 2 ^ 76⟩, ⟨1, none⟩, ⟨2, some 0⟩⟩ ∧
    BaseSchemaMixin.construct ⟨fun _ => 9, fun _ => 9⟩
        (some (.uuid ⟨4 * 2 ^ 76⟩)) (some (.datetime ⟨1, none⟩))
        (some (.datetime ⟨2, some 0⟩)) =
      BaseSchemaMixin.construct ⟨fun _ => 3, fun _ => 3⟩
        (some (.uuid ⟨4 * 2 ^ 76⟩)) (some (.datetime ⟨1, none⟩))
        (some (.datetime ⟨2, some 0⟩)) ∧
    BaseSchemaMixin.construct ⟨fun _ => 9, fun _ => 9⟩
        (some (.uuid ⟨4 * 2 ^ 76⟩)) none none =
      some ⟨⟨4 * 2 ^ 76⟩, ⟨9, some 0⟩, ⟨9, some 0⟩⟩ ∧
    BaseSchemaMixin.construct ⟨fun _ => 9, fun _ => 9⟩
        none (some (.datetime ⟨1, none⟩)) none =
      some ⟨uuid4 9, ⟨1, none⟩, ⟨9, some 0⟩⟩ ∧
    BaseSchemaMixin.construct ⟨fun _ => 9, fun _ => 9⟩
        none none (some (.datetime ⟨2, some 0⟩)) =
      some ⟨uuid4 9, ⟨9, some 0⟩, ⟨2, some 0⟩⟩) :=
  ⟨by decide,
    C5_explicit_overrides ⟨fun _ => 9, fun _ => 9⟩ ⟨fun _ => 3, fun _ => 3⟩
      ⟨4 * 2 ^ 76⟩ ⟨1, none⟩ ⟨2, some 0⟩ (by decide)⟩

/-- C6 — counterexample.  The claim says both timestamps are
timezone-aware UTC for every successfully constructed record, whether
defaulted or supplied explicitly.  But the fields are declared as plain
`datetime`, which accepts a naive datetime as given: supplying a naive
`created_at` succeeds and the stored `created_at` carries no UTC
offset. -/
theorem C6_timestamps_utc_cex :
    BaseSchemaMixin.construct ⟨fun _ => 0, fun _ => 0⟩ none
        (some (.datetime ⟨5, none⟩)) none =
      some ⟨uuid4 0, ⟨5, none⟩, ⟨0, some 0⟩⟩ ∧
    (Datetime.mk 5 none).tz ≠ some 0 :=
  ⟨rfl, by decide⟩

/-- C6 — amended: in every successful construction (any combination of
defaulted and supplied fields), a defaulted `created_at` or
`updated_at` is the timezone-aware UTC value of its own
default-factory clock call, while an explicitly supplied timestamp is
stored exactly as given (and so may be naive). -/
theorem C6_default_timestamps_utc (env : Env) (id? ca? ua? : Option PyValue)
    (r : BaseSchemaMixin)
    (h : BaseSchemaMixin.construct env id? ca? ua? = some r) :
    (ca? = none → r.created_at = now_utc env 0) ∧
    (ua? = none → r.updated_at = now_utc env (nowIdx ca?)) ∧
    (∀ c, ca? = some (.datetime c) → r.created_at = c) ∧
    (∀ u, ua? = some (.datetime u) → r.updated_at = u) ∧
    (ca? = none → r.created_at.tz = some 0) ∧
    (ua? = none → r.updated_at.tz = some 0) := by
  cases hid : fieldVal (uuid4 (env.rand 0)) validateUUID4 id? with
  | none => simp [BaseSchemaMixin.construct, baseFields, hid] at h
  | some i =>
  cases hca : fieldVal (now_utc env 0) validateDatetime ca? with
  | none => simp [BaseSchemaMixin.construct, baseFields, hid, hca] at h
  | some c =>
  cases hua : fieldVal (now_utc env (nowIdx ca?)) validateDatetime ua? with
  | none => simp [BaseSchemaMixin.construct, baseFields, hid, hca, hua] at h
  | some u =>
  have hc2 : BaseSchemaMixin.construct env id? ca? ua? = some ⟨i, c, u⟩ := by
    unfold BaseSchemaMixin.construct baseFields
    rw [hid, hca, hua]
    rfl
  rw [hc2] at h
  cases Option.some.inj h
  refine ⟨?_, ?_, ?_, ?_, ?_, ?_⟩
  · intro hcn
    subst hcn
    exact (Option.some.inj hca).symm
  · intro hun
    subst hun
    exact (Option.some.inj hua).symm
  · intro c0 hc0
    subst hc0
    exact (Option.some.inj hca).symm
  · intro u0 hu0
    subst hu0
    exact (Option.some.inj hua).symm
  · intro hcn
    subst hcn
    rw [← Option.some.inj hca]
    rfl
  · intro hun
    subst hun
    rw [← Option.some.inj hua]
    rfl

/-- C6 — witness: a mixed construction — explicit naive `created_at`,
defaulted `updated_at` — stores the naive value as given while the
defaulted timestamp is UTC-aware. -/
theorem C6_default_timestamps_utc_witness :
    (⟨uuid4 0, ⟨5, none⟩, ⟨0, some 0⟩⟩ : BaseSchemaMixin).created_at = ⟨5, none⟩ ∧
    (⟨uuid4 0, ⟨5, none⟩, ⟨0, some 0⟩⟩ : BaseSchemaMixin).updated_at = ⟨0, some 0⟩ ∧
    (⟨uuid4 0, ⟨5, none⟩, ⟨0, some 0⟩⟩ : BaseSchemaMixin).updated_at.tz = some 0 := by
  have H := C6_default_timestamps_utc ⟨fun _ => 0, fun n => n⟩ none
    (some (.datetime ⟨5, none⟩)) none ⟨uuid4 0, ⟨5, none⟩, ⟨0, some 0⟩⟩ rfl
  exact ⟨H.2.2.1 ⟨5, none⟩ rfl, H.2.1 rfl, H.2.2.2.2.2 rfl⟩

/-- C7 — confirmed.  The `product_in` fixture — `ProductIn` built from
the factory's four business-field values together with
`id=product_id` — always succeeds, and the resulting record's `id` is
exactly the literal UUID `ddc287ef-ab93-4ef5-8336-78883c422f6a` (whose
version nibble is 4, so the `UUID4` field accepts it). -/
theorem C7_product_in_id (env : Env) (nm : String) (q : Int) (p : PyFloat)
    (st : Bool) :
    product_in env nm q p st =
      some ⟨product_id, ⟨env.now 0, some 0⟩, ⟨env.now 1, some 0⟩, nm, q, p, st⟩ := by
  have h4 : product_id.version = 4 := by decide
  simp [product_in, product_data, ProductIn.construct, baseFields, fieldVal,
    validateUUID4, validateStr, validateInt, validateFloat, validateBool,
    now_utc, nowIdx, h4]

/-- C8 — counterexample.  The claim asserts distinct ids for every two
distinct constructions, unconditionally.  But `uuid.uuid4` only
transforms its 128-bit random draw: two constructions whose draws
coincide (here both 0, under different clocks — so the records, and
the constructions, are distinct) produce the same id. -/
theorem C8_fresh_ids_distinct_cex :
    BaseSchemaMixin.construct ⟨fun _ => 0, fun _ => 0⟩ none none none =
      some ⟨uuid4 0, ⟨0, some 0⟩, ⟨0, some 0⟩⟩ ∧
    BaseSchemaMixin.construct ⟨fun _ => 0, fun n => n + 1⟩ none none none =
      some ⟨uuid4 0, ⟨1, some 0⟩, ⟨2, some 0⟩⟩ ∧
    (⟨uuid4 0, ⟨0, some 0⟩, ⟨0, some 0⟩⟩ : BaseSchemaMixin) ≠
      ⟨uuid4 0, ⟨1, some 0⟩, ⟨2, some 0⟩⟩ ∧
    (⟨uuid4 0, ⟨0, some 0⟩, ⟨0, some 0⟩⟩ : BaseSchemaMixin).id =
      (⟨uuid4 0, ⟨1, some 0⟩, ⟨2, some 0⟩⟩ : BaseSchemaMixin).id :=
  ⟨rfl, rfl, by decide, rfl⟩

/-- C8 — amended: two constructions with no explicit `id` have distinct
ids whenever their 128-bit random draws are not forced to coincide by
the version/variant overwrite — that is, they differ in a retained bit
field (the 62 low bits, the 12 bits below the version nibble, or the
48 high bits); draws equal on the retained bits yield equal ids. -/
theorem C8_fresh_ids_distinct (e1 e2 : Env) (r1 r2 : BaseSchemaMixin)
    (h1 : BaseSchemaMixin.construct e1 none none none = some r1)
    (h2 : BaseSchemaMixin.construct e2 none none none = some r2)
    (h : e1.rand 0 % 2 ^ 128 % 2 ^ 62 ≠ e2.rand 0 % 2 ^ 128 % 2 ^ 62 ∨
      e1.rand 0 % 2 ^ 128 / 2 ^ 64 % 2 ^ 12 ≠ e2.rand 0 % 2 ^ 128 / 2 ^ 64 % 2 ^ 12 ∨
      e1.rand 0 % 2 ^ 128 / 2 ^ 80 ≠ e2.rand 0 % 2 ^ 128 / 2 ^ 80) :
    r1.id ≠ r2.id := by
  have g1 : (⟨uuid4 (e1.rand 0), ⟨e1.now 0, some 0⟩, ⟨e1.now 1, some 0⟩⟩ :
      BaseSchemaMixin) = r1 := Option.some.inj h1
  have g2 : (⟨uuid4 (e2.rand 0), ⟨e2.now 0, some 0⟩, ⟨e2.now 1, some 0⟩⟩ :
      BaseSchemaMixin) = r2 := Option.some.inj h2
  rw [← g1, ← g2]
  intro hid
  have hv : (uuid4 (e1.rand 0)).val = (uuid4 (e2.rand 0)).val :=
    congrArg UUID.val hid
  simp only [uuid4] at hv
  rcases h with h | h | h <;> omega

/-- C8 — witness: draws 0 and 1 differ in the low bits, and the two
generated ids differ. -/
theorem C8_fresh_ids_distinct_witness : uuid4 0 ≠ uuid4 1 :=
  C8_fresh_ids_distinct ⟨fun _ => 0, fun _ => 0⟩ ⟨fun _ => 1, fun _ => 0⟩
    ⟨uuid4 0, ⟨0, some 0⟩, ⟨0, some 0⟩⟩ ⟨uuid4 1, ⟨0, some 0⟩, ⟨0, some 0⟩⟩
    rfl rfl (Or.inl (by decide))

/-- C9 — confirmed.  The `id` field is declared `UUID4`: an explicitly
supplied UUID whose version nibble is not 4 (e.g. a version-1 UUID) is
rejected, failing the whole construction — for `BaseSchemaMixin`
directly and for a `ProductIn` input carrying such an `id` alike. -/
theorem C9_non_v4_uuid_rejected (env : Env) (created? updated? : Option PyValue)
    (u : UUID) (inp : ProductInput) (h : u.version ≠ 4)
    (hinp : inp.id = some (.uuid u)) :
    BaseSchemaMixin.construct env (some (.uuid u)) created? updated? = none ∧
    ProductIn.construct env inp = none := by
  constructor
  · simp [BaseSchemaMixin.construct, baseFields, fieldVal, validateUUID4, h]
  · simp [ProductIn.construct, baseFields, fieldVal, validateUUID4, hinp, h]

/-- C9 — witness: the version-1 UUID with value `2 ^ 76` is rejected by
both constructors. -/
theorem C9_non_v4_uuid_rejected_witness :
    UUID.version ⟨2 ^ 76⟩ ≠ 4 ∧
    BaseSchemaMixin.construct ⟨fun _ => 0, fun _ => 0⟩
      (some (.uuid ⟨2 ^ 76⟩)) none none = none ∧
    ProductIn.construct ⟨fun _ => 0, fun _ => 0⟩
      { id := some (.uuid ⟨2 ^ 76⟩) } = none :=
  ⟨by decide,
    C9_non_v4_uuid_rejected ⟨fun _ => 0, fun _ => 0⟩ none none ⟨2 ^ 76⟩
      { id := some (.uuid ⟨2 ^ 76⟩) } (by decide) rfl⟩

end TddProject
